import Mathlib

/-!
Verification of the Gitaroo workspace/music-theory core against its
specification.  The definitions below are a shallow embedding of the
JavaScript sources:

* `src/utils/music-theory.js`  — `MusicTheory` (chromatic table, `getNoteAt`,
  `calculateInterval`);
* `src/components/grid.js`     — note placement / group cycling / removal;
* `src/utils/state-management.js` — `StateManager` (undo/redo history);
* `src/utils/file-operations.js`  — save/load validation.

JavaScript machine details that matter are modelled explicitly: the `%`
operator is the truncated remainder (`Int.tmod`; JS `-0` is identified with
`0` by `===`, as `tmod` does), `Array.prototype.indexOf` returns `-1` on a
miss, `undefined` is `Option.none`, and loosely-typed JSON values are the
`JSValue` type further below.  Browser I/O (DOM, Blob, FileReader) is
presentation glue outside the verified core and is not modelled.
-/

namespace Gitaroo

/-- JS `%` on integers: truncated remainder (sign of the dividend).  JS can
produce `-0`, but every comparison the sources make uses `===`, which
identifies `-0` with `0`, so `Int.tmod` is an exact model. -/
def jsMod (a b : Int) : Int := a.tmod b

/-- An entry of `MusicTheory.chromaticScale` (music-theory.js): note name,
naturalness flag and semitone value. -/
structure PitchClass where
  name : String
  isNatural : Bool
  semitone : Int
deriving Repr, DecidableEq

/-- `MusicTheory.chromaticScale`: the fixed 12-entry chromatic table. -/
def chromaticScale : List PitchClass := [
  ⟨"C", true, 0⟩, ⟨"C#", false, 1⟩, ⟨"D", true, 2⟩, ⟨"D#", false, 3⟩,
  ⟨"E", true, 4⟩, ⟨"F", true, 5⟩, ⟨"F#", false, 6⟩, ⟨"G", true, 7⟩,
  ⟨"G#", false, 8⟩, ⟨"A", true, 9⟩, ⟨"A#", false, 10⟩, ⟨"B", true, 11⟩]

/-- `MusicTheory.noteClassMap`: note name → CSS class.  A key absent from the
map yields JS `undefined`, i.e. `none`. -/
def noteClassMap (name : String) : Option String :=
  if name = "C" then some "c" else if name = "C#" then some "c-sharp"
  else if name = "D" then some "d" else if name = "D#" then some "d-sharp"
  else if name = "E" then some "e" else if name = "F" then some "f"
  else if name = "F#" then some "f-sharp" else if name = "G" then some "g"
  else if name = "G#" then some "g-sharp" else if name = "A" then some "a"
  else if name = "A#" then some "a-sharp" else if name = "B" then some "b"
  else none

/-- One element of a tuning array: `{ note, semitone }`. -/
structure StringTuning where
  note : String
  semitone : Int
deriving Repr, DecidableEq

/-- The record returned by `MusicTheory.getNoteAt`: the spread of the matched
chromatic entry plus `cssClass`, `displayText`, and the echoed `fret` and
`stringTuning` arguments. -/
structure NoteInfo where
  name : String
  isNatural : Bool
  semitone : Int
  cssClass : Option String
  displayText : String
  fret : Int
  stringTuning : StringTuning
deriving Repr, DecidableEq

/-- `MusicTheory.getNoteAt(stringTuning, fretNumber)` (music-theory.js).
When `chromaticScale.find` returns `undefined` the subsequent field accesses
throw a TypeError; that crash is modelled as `none`. -/
def getNoteAt (stringTuning : StringTuning) (fretNumber : Int) : Option NoteInfo :=
  let baseSemitone := stringTuning.semitone
  let totalSemitones := jsMod (baseSemitone + fretNumber) 12
  match chromaticScale.find? (fun note => note.semitone == totalSemitones) with
  | none => none
  | some noteInfo => some {
      name := noteInfo.name
      isNatural := noteInfo.isNatural
      semitone := noteInfo.semitone
      cssClass := noteClassMap noteInfo.name
      displayText := if noteInfo.isNatural then noteInfo.name else ""
      fret := fretNumber
      stringTuning := stringTuning }

/-- An entry of `MusicTheory.intervals`, keyed in JS object insertion order. -/
structure IntervalDef where
  key : String
  semitones : Int
  displayName : String
deriving Repr, DecidableEq

/-- `MusicTheory.intervals` in object-key insertion order, which is the order
`Object.keys` enumerates in `calculateInterval`. -/
def intervals : List IntervalDef := [
  ⟨"minor-3rd", 3, "Minor 3rd"⟩, ⟨"major-3rd", 4, "Major 3rd"⟩,
  ⟨"perfect-4th", 5, "Perfect 4th"⟩, ⟨"perfect-5th", 7, "Perfect 5th"⟩,
  ⟨"minor-7th", 10, "Minor 7th"⟩, ⟨"major-7th", 11, "Major 7th"⟩,
  ⟨"octave", 12, "Octave"⟩]

/-- The record `calculateInterval` returns on a match:
`{ type, distance, ...intervals[key] }`. -/
structure IntervalResult where
  type : String
  distance : Int
  semitones : Int
  displayName : String
deriving Repr, DecidableEq

/-- `MusicTheory.calculateInterval(rootNote, targetNote)` (music-theory.js).
The JS null guard on either argument is the `none` cases. -/
def calculateInterval (rootNote targetNote : Option PitchClass) : Option IntervalResult :=
  match rootNote, targetNote with
  | some root, some target =>
    let rootSemitone := root.semitone
    let targetSemitone := target.semitone
    let distance0 := targetSemitone - rootSemitone
    let distance := if distance0 < 0 then distance0 + 12 else distance0
    match intervals.find? (fun iv => iv.semitones == distance) with
    | some iv => some ⟨iv.key, distance, iv.semitones, iv.displayName⟩
    | none => none
  | _, _ => none

/-- The interval table exactly as the specification's claim words it (spec
§4.1): semitone distance → interval kind, with entries only at
3, 4, 5, 7, 10, 11 and in particular no octave entry.  This definition follows
the claim's words, for comparison against `calculateInterval` above. -/
def claimIntervalKind (d : Int) : Option String :=
  if d = 3 then some "minor-3rd"
  else if d = 4 then some "major-3rd"
  else if d = 5 then some "perfect-4th"
  else if d = 7 then some "perfect-5th"
  else if d = 10 then some "minor-7th"
  else if d = 11 then some "major-7th"
  else none

/-- The pitch-class content of a `getNoteAt` result: every field except the
echoed fret and string tuning. -/
def pitchClassContent (n : NoteInfo) : String × Bool × Int × Option String × String :=
  (n.name, n.isNatural, n.semitone, n.cssClass, n.displayText)

theorem tmod_neg_dividend (a : Int) : (-a).tmod 12 = -(a.tmod 12) := by
  rw [Int.tmod_def, Int.tmod_def, Int.neg_tdiv]
  ring

theorem tmod_neg_of_neg_not_dvd (a : Int) (h : a < 0) (h2 : ¬ (12 : Int) ∣ a) :
    a.tmod 12 < 0 := by
  have h3 : a.tmod 12 = -((-a).tmod 12) := by
    simpa using tmod_neg_dividend (-a)
  have h4 : (-a).tmod 12 = (-a) % 12 := Int.tmod_eq_emod (by omega) (by norm_num)
  have h5 : (-a) % 12 ≠ 0 := by
    intro hz
    have : (12 : Int) ∣ (-a) := Int.dvd_of_emod_eq_zero hz
    exact h2 (dvd_neg.mp this)
  have h6 : 0 ≤ (-a) % 12 := Int.emod_nonneg _ (by norm_num)
  omega

theorem chromaticScale_semitone_nonneg : ∀ pc ∈ chromaticScale, 0 ≤ pc.semitone := by
  decide

theorem chromatic_find_exists (m : Int) (h0 : 0 ≤ m) (h1 : m < 12) :
    ∃ pc, chromaticScale.find? (fun note => note.semitone == m) = some pc ∧
      pc.semitone = m := by
  interval_cases m <;> exact ⟨_, rfl, rfl⟩

theorem chromatic_find_neg (m : Int) (hm : m < 0) :
    chromaticScale.find? (fun note => note.semitone == m) = none := by
  rw [List.find?_eq_none]
  intro pc hpc
  have := chromaticScale_semitone_nonneg pc hpc
  simp only [beq_iff_eq]
  omega

/-- C8: for pitch classes with semitones in [0,11], `calculateInterval`
computes distance = (target − root) mod 12, maps it through the fixed table
{3,4,5,7,10,11} (distances 0,1,2,6,8,9 yield no interval), and the table's
"octave" entry (12 semitones) is never returned. -/
theorem calculateInterval_matches_claim_table (root target : PitchClass)
    (hr0 : 0 ≤ root.semitone) (hr1 : root.semitone ≤ 11)
    (ht0 : 0 ≤ target.semitone) (ht1 : target.semitone ≤ 11) :
    ((calculateInterval (some root) (some target)).map (fun r => r.type) =
      claimIntervalKind ((target.semitone - root.semitone) % 12)) ∧
    ((calculateInterval (some root) (some target)).map (fun r => r.distance) =
      (claimIntervalKind ((target.semitone - root.semitone) % 12)).map
        (fun _ => (target.semitone - root.semitone) % 12)) ∧
    ((calculateInterval (some root) (some target)).map (fun r => r.type) ≠
      some "octave") := by
  obtain ⟨rname, rnat, rs⟩ := root
  obtain ⟨tname, tnat, ts⟩ := target
  simp only at hr0 hr1 ht0 ht1
  simp only [calculateInterval]
  interval_cases rs <;> interval_cases ts <;> decide

theorem calculateInterval_matches_claim_table_witness :
    ((calculateInterval (some ⟨"C", true, 0⟩) (some ⟨"G", true, 7⟩)).map
        (fun r => r.type) =
      claimIntervalKind (((7 : Int) - 0) % 12)) ∧
    ((calculateInterval (some ⟨"C", true, 0⟩) (some ⟨"G", true, 7⟩)).map
        (fun r => r.distance) =
      (claimIntervalKind (((7 : Int) - 0) % 12)).map
        (fun _ => ((7 : Int) - 0) % 12)) ∧
    ((calculateInterval (some ⟨"C", true, 0⟩) (some ⟨"G", true, 7⟩)).map
        (fun r => r.type) ≠ some "octave") :=
  calculateInterval_matches_claim_table ⟨"C", true, 0⟩ ⟨"G", true, 7⟩
    (by decide) (by decide) (by decide) (by decide)

/-- C9 (counterexample): the full `getNoteAt` results at fret 0 and fret 12
differ, because the returned record echoes the fret argument; the claimed
equality `getNoteAt t f = getNoteAt t (f+12)` fails at the low-E string,
fret 0. -/
theorem getNoteAt_full_result_not_periodic :
    getNoteAt ⟨"E", 4⟩ 0 ≠ getNoteAt ⟨"E", 4⟩ 12 := by
  decide

/-- C9 (amended): `getNoteAt` is periodic in the fret with period 12 in its
pitch-class content (name, naturalness, semitone, cssClass, displayText); only
the echoed fret and tuning fields differ. -/
theorem getNoteAt_pitchClass_periodic (t : StringTuning) (f : Int)
    (hs : 0 ≤ t.semitone) (hf : 0 ≤ f) :
    (getNoteAt t f).map pitchClassContent =
      (getNoteAt t (f + 12)).map pitchClassContent := by
  have key : Int.tmod (t.semitone + (f + 12)) 12 = Int.tmod (t.semitone + f) 12 := by
    rw [Int.tmod_eq_emod (by omega) (by norm_num),
      Int.tmod_eq_emod (by omega) (by norm_num)]
    omega
  simp only [getNoteAt, jsMod, key]
  cases chromaticScale.find? (fun note => note.semitone == Int.tmod (t.semitone + f) 12) with
  | none => rfl
  | some pc => rfl

theorem getNoteAt_pitchClass_periodic_witness :
    (getNoteAt ⟨"E", 4⟩ 3).map pitchClassContent =
      (getNoteAt ⟨"E", 4⟩ (3 + 12)).map pitchClassContent :=
  getNoteAt_pitchClass_periodic ⟨"E", 4⟩ 3 (by decide) (by decide)

/-- C10 (counterexample): the claim that the chromatic lookup finds no entry
whenever `tuning.semitone + f < 0` is false: at semitone 0, fret −12, the JS
remainder is −0 (≡ 0 under `===`) and the lookup succeeds. -/
theorem getNoteAt_negative_sum_can_succeed :
    ((⟨"C", 0⟩ : StringTuning).semitone + (-12) < 0) ∧
      (getNoteAt ⟨"C", 0⟩ (-12)).isSome = true := by
  decide

/-- C10 (amended): for tunings with semitone in [0,11], `getNoteAt` always
succeeds when `tuning.semitone + f ≥ 0`, returning semitone
`(tuning.semitone + f) mod 12`; for `tuning.semitone + f < 0` the lookup fails
exactly when 12 does not divide the sum (when it does divide, the JS remainder
is −0 and the lookup returns the semitone-0 entry). -/
theorem getNoteAt_total_characterisation (t : StringTuning) (f : Int)
    (_h0 : 0 ≤ t.semitone) (_h1 : t.semitone ≤ 11) :
    (0 ≤ t.semitone + f →
      (getNoteAt t f).map (fun n => n.semitone) = some ((t.semitone + f) % 12)) ∧
    (t.semitone + f < 0 → ¬ (12 : Int) ∣ (t.semitone + f) → getNoteAt t f = none) ∧
    (t.semitone + f < 0 → (12 : Int) ∣ (t.semitone + f) →
      (getNoteAt t f).map (fun n => n.semitone) = some 0) := by
  refine ⟨?_, ?_, ?_⟩
  · intro hpos
    have hemod : Int.tmod (t.semitone + f) 12 = (t.semitone + f) % 12 :=
      Int.tmod_eq_emod hpos (by norm_num)
    obtain ⟨pc, hfind, hsem⟩ :=
      chromatic_find_exists ((t.semitone + f) % 12)
        (Int.emod_nonneg _ (by norm_num)) (Int.emod_lt_of_pos _ (by norm_num))
    simp only [getNoteAt, jsMod, hemod, hfind, Option.map_some']
    simp [hsem]
  · intro hneg hnd
    have hlt : Int.tmod (t.semitone + f) 12 < 0 :=
      tmod_neg_of_neg_not_dvd _ hneg hnd
    simp only [getNoteAt, jsMod, chromatic_find_neg _ hlt]
  · intro _ hdvd
    have hz : Int.tmod (t.semitone + f) 12 = 0 := Int.tmod_eq_zero_of_dvd hdvd
    obtain ⟨pc, hfind, hsem⟩ := chromatic_find_exists 0 (by norm_num) (by norm_num)
    simp only [getNoteAt, jsMod, hz, hfind, Option.map_some']
    simp [hsem]

theorem getNoteAt_total_characterisation_witness :
    (getNoteAt ⟨"E", 4⟩ 3).map (fun n => n.semitone) = some (((4 : Int) + 3) % 12) :=
  (getNoteAt_total_characterisation ⟨"E", 4⟩ 3 (by decide) (by decide)).1 (by decide)

/-! ## Grid notes (src/components/grid.js)

A grid's `notes` is a JS `Map` keyed by
`` `${gridId}_${stringIndex}_${fret}` ``; it is modelled as an
insertion-ordered association list with unique keys (`Map.set` replaces in
place, `Map.delete` removes).  The DOM element stored alongside each note and
the `saveState` call at the end of each mutator are presentation / history
concerns; history recording is modelled separately by `StateManager` below. -/

/-- A value of the grid's `notes` map: `{ ...noteInfo, stringIndex, fret,
groupState }` as built in `placeNote` (the DOM `element` is not modelled). -/
structure GridNote where
  name : String
  isNatural : Bool
  semitone : Int
  cssClass : Option String
  displayText : String
  stringTuning : StringTuning
  stringIndex : Nat
  fret : Int
  groupState : String
deriving Repr, DecidableEq

/-- `Map.prototype.get`. -/
def mapGet (m : List (String × GridNote)) (k : String) : Option GridNote :=
  (m.find? (fun p => p.1 == k)).map (fun p => p.2)

/-- `Map.prototype.set`: replaces the value in place when the key exists,
otherwise appends in insertion order. -/
def mapSet (m : List (String × GridNote)) (k : String) (v : GridNote) :
    List (String × GridNote) :=
  if m.any (fun p => p.1 == k) then
    m.map (fun p => if p.1 == k then (p.1, v) else p)
  else
    m ++ [(k, v)]

/-- `Map.prototype.delete`. -/
def mapDelete (m : List (String × GridNote)) (k : String) :
    List (String × GridNote) :=
  m.filter (fun p => !(p.1 == k))

/-- In-place mutation `note.groupState = v` of a note held by the map. -/
def mapSetGroup (m : List (String × GridNote)) (k : String) (v : GridNote) :
    List (String × GridNote) :=
  m.map (fun p => if p.1 == k then (p.1, v) else p)

/-- The note id `` `${this.element.id}_${stringIndex}_${fret}` ``. -/
def mkNoteId (gridId : String) (stringIndex : Nat) (fret : Int) : String :=
  gridId ++ "_" ++ toString stringIndex ++ "_" ++ toString fret

/-- The grid state the note mutators of grid.js read and write: the grid's
element id, its configured tuning, the `notes` map, the canvas-level root-note
reference (`canvas.rootNote?.noteId`) and the lock flag. -/
structure GridState where
  gridId : String
  tuning : List StringTuning
  notes : List (String × GridNote)
  rootNoteId : Option String
  isLocked : Bool
deriving Repr, DecidableEq

/-- grid.js `removeNote(noteId)`: no-op on an unknown id; otherwise deletes
the note and clears the canvas root reference when it pointed at this note
(`canvas.setRootNote(null)`; the interval recomputation it triggers is out of
scope here). -/
def removeNote (g : GridState) (noteId : String) : GridState :=
  match mapGet g.notes noteId with
  | none => g
  | some _ =>
    { g with
      notes := mapDelete g.notes noteId
      rootNoteId := if g.rootNoteId == some noteId then none else g.rootNoteId }

/-- grid.js `groupStates` inside `cycleNoteGroup`. -/
def groupStates : List String := ["chromatic", "group-1", "group-2", "group-3", "group-4"]

/-- JS `Array.prototype.indexOf`: index of the first occurrence, `-1` on a
miss. -/
def jsIndexOf (l : List String) (x : String) : Int :=
  match l.findIdx? (fun y => y == x) with
  | some i => (i : Int)
  | none => -1

/-- grid.js `cycleNoteGroup(noteId, note)`.  The guarded removal branch fires
only when `nextIndex === 0 && currentIndex === 0`; otherwise the note's
`groupState` is overwritten with `groupStates[nextIndex]` (CSS class updates
are presentation-only). -/
def cycleNoteGroup (g : GridState) (noteId : String) (note : GridNote) : GridState :=
  let currentIndex := jsIndexOf groupStates note.groupState
  let nextIndex := jsMod (currentIndex + 1) 5
  if nextIndex == 0 && currentIndex == 0 then
    removeNote g noteId
  else
    let newGroupState := (groupStates.get? nextIndex.toNat).getD ""
    { g with notes := mapSetGroup g.notes noteId { note with groupState := newGroupState } }

/-- The note record `placeNote` stores: the spread of the `getNoteAt` result
plus `stringIndex`, `fret` and the starting `groupState = 'chromatic'`. -/
def mkGridNote (ni : NoteInfo) (stringIndex : Nat) (fret : Int) : GridNote :=
  { name := ni.name, isNatural := ni.isNatural, semitone := ni.semitone
    cssClass := ni.cssClass, displayText := ni.displayText
    stringTuning := ni.stringTuning
    stringIndex := stringIndex, fret := fret, groupState := "chromatic" }

/-- grid.js `placeNote(stringIndex, fret)`.  Reading `tuning[stringIndex]` out
of bounds, or a failed chromatic lookup, throws in JS (modelled `none`).
There is no occupancy check: `notes.set` overwrites any entry already stored
under the same id. -/
def placeNote (g : GridState) (stringIndex : Nat) (fret : Int) : Option GridState :=
  match g.tuning.get? stringIndex with
  | none => none
  | some stringTuning =>
    match getNoteAt stringTuning fret with
    | none => none
    | some noteInfo =>
      let noteId := mkNoteId g.gridId stringIndex fret
      some { g with notes := mapSet g.notes noteId (mkGridNote noteInfo stringIndex fret) }

/-- grid.js `handleNoteClick` resolved to semantic coordinates: locked grids
ignore the click; an occupied coordinate cycles the existing note's group; a
free coordinate places a new note. -/
def handleNoteClick (g : GridState) (stringIndex : Nat) (fret : Int) : Option GridState :=
  if g.isLocked then some g
  else
    let noteId := mkNoteId g.gridId stringIndex fret
    match mapGet g.notes noteId with
    | some existingNote => some (cycleNoteGroup g noteId existingNote)
    | none => placeNote g stringIndex fret

/-- The successor the amended claim C1 describes: one step along
[chromatic, group-1, group-2, group-3, group-4], wrapping group-4 back to
chromatic. -/
def claimNextGroupState (s : String) : String :=
  if s = "chromatic" then "group-1"
  else if s = "group-1" then "group-2"
  else if s = "group-2" then "group-3"
  else if s = "group-3" then "group-4"
  else "chromatic"

/-- A concrete note in the last group state, for exercising the wrap. -/
def eNoteGroup4 : GridNote :=
  { name := "E", isNatural := true, semitone := 4, cssClass := some "e"
    displayText := "E", stringTuning := ⟨"E", 4⟩
    stringIndex := 0, fret := 0, groupState := "group-4" }

/-- A one-note grid whose note is in `group-4`. -/
def gridWithGroup4 : GridState :=
  { gridId := "grid1", tuning := [⟨"E", 4⟩]
    notes := [("grid1_0_0", eNoteGroup4)], rootNoteId := none, isLocked := false }

/-- C1 (counterexample): the claim says cycling a `group-4` note wraps past
group-4 and therefore removes the note; in the code the removal branch
requires `currentIndex === 0` while wrapping requires `currentIndex === 4`, so
it never fires: the note stays on the grid with `groupState` set back to
`chromatic`. -/
theorem cycleNoteGroup_group4_keeps_note :
    eNoteGroup4.groupState = "group-4" ∧
    mapGet (cycleNoteGroup gridWithGroup4 "grid1_0_0" eNoteGroup4).notes "grid1_0_0" =
      some { eNoteGroup4 with groupState := "chromatic" } := by
  decide

/-- C1 (amended): for a note whose `groupState` is one of the five states,
`cycleNoteGroup` advances it one step through
[chromatic, group-1, group-2, group-3, group-4] and wraps `group-4` back to
`chromatic`; it never removes the note. -/
theorem cycleNoteGroup_advances_and_wraps (g : GridState) (noteId : String)
    (note : GridNote) (h : note.groupState ∈ groupStates) :
    cycleNoteGroup g noteId note =
      { g with notes := (mapSetGroup g.notes noteId { note with groupState := claimNextGroupState note.groupState }) } := by
  obtain ⟨nm, natl, st, cc, dt, stt, si, fr, gs⟩ := note
  simp only [groupStates, List.mem_cons, List.not_mem_nil, or_false] at h
  rcases h with h | h | h | h | h <;> subst h <;> rfl

theorem cycleNoteGroup_advances_and_wraps_witness :
    cycleNoteGroup gridWithGroup4 "grid1_0_0" eNoteGroup4 =
      { gridWithGroup4 with notes := (mapSetGroup gridWithGroup4.notes "grid1_0_0" { eNoteGroup4 with groupState := claimNextGroupState eNoteGroup4.groupState }) } :=
  cycleNoteGroup_advances_and_wraps gridWithGroup4 "grid1_0_0" eNoteGroup4 (by decide)

/-- A concrete note occupying string 0, fret 0 with a non-default group. -/
def occupyingNote : GridNote :=
  { name := "E", isNatural := true, semitone := 4, cssClass := some "e"
    displayText := "E", stringTuning := ⟨"E", 4⟩
    stringIndex := 0, fret := 0, groupState := "group-2" }

/-- A grid with `occupyingNote` already placed at (0, 0). -/
def occupiedGrid : GridState :=
  { gridId := "g1", tuning := [⟨"E", 4⟩]
    notes := [("g1_0_0", occupyingNote)], rootNoteId := none, isLocked := false }

/-- C4 (counterexample): called on an occupied coordinate, `placeNote` does
not fail with a "coordinate occupied" condition and does mutate the note
collection: it succeeds and overwrites the existing note (resetting its
`groupState` to `chromatic`). -/
theorem placeNote_overwrites_occupied :
    (mapGet occupiedGrid.notes (mkNoteId occupiedGrid.gridId 0 0)).isSome = true ∧
    (placeNote occupiedGrid 0 0).isSome = true ∧
    placeNote occupiedGrid 0 0 ≠ some occupiedGrid := by
  decide

/-- C4 (amended): the occupancy check lives in `handleNoteClick`, not
`placeNote`: on an unlocked grid a click on a free coordinate places a note
whose pitch fields come from `MusicTheory.getNoteAt` and whose `groupState`
is `chromatic`, while a click on an occupied coordinate performs no placement
and instead cycles the existing note's group; `placeNote` itself checks
nothing and unconditionally writes into the map. -/
theorem handleNoteClick_place_or_cycle (g : GridState) (s : Nat) (f : Int)
    (hl : g.isLocked = false) :
    (∀ t ni, g.tuning.get? s = some t → getNoteAt t f = some ni →
      mapGet g.notes (mkNoteId g.gridId s f) = none →
      handleNoteClick g s f =
        some { g with notes := mapSet g.notes (mkNoteId g.gridId s f) (mkGridNote ni s f) } ∧
      (mkGridNote ni s f).groupState = "chromatic") ∧
    (∀ n, mapGet g.notes (mkNoteId g.gridId s f) = some n →
      handleNoteClick g s f = some (cycleNoteGroup g (mkNoteId g.gridId s f) n)) := by
  constructor
  · intro t ni ht hni hfree
    have ht' : g.tuning[s]? = some t := by simpa using ht
    refine ⟨?_, rfl⟩
    simp [handleNoteClick, hl, hfree, placeNote, ht', hni]
  · intro n hocc
    simp [handleNoteClick, hl, hocc]

/-- An empty grid over one E string, for exercising free-coordinate clicks. -/
def emptyGrid : GridState :=
  { gridId := "g2", tuning := [⟨"E", 4⟩], notes := []
    rootNoteId := none, isLocked := false }

theorem handleNoteClick_place_or_cycle_witness :
    handleNoteClick emptyGrid 0 0 =
      some { emptyGrid with
             notes := mapSet emptyGrid.notes (mkNoteId "g2" 0 0)
               (mkGridNote ⟨"E", true, 4, some "e", "E", 0, ⟨"E", 4⟩⟩ 0 0) } := by
  have h := handleNoteClick_place_or_cycle emptyGrid 0 0 rfl
  exact (h.1 ⟨"E", 4⟩ ⟨"E", true, 4, some "e", "E", 0, ⟨"E", 4⟩⟩ rfl (by decide) rfl).1

/-! ## StateManager (src/utils/state-management.js)

The history log over full-state snapshots.  Snapshots are an arbitrary type
`σ`: `cloneState` performs a JSON deep copy in JS, which on the immutable
values modelled here is the identity.  Entry `id` and `timestamp` fields come
from `Date.now()`/`Math.random()` — environment-supplied identity data never
read by undo/redo — and are omitted.  Listener fan-out is a side effect with
no influence on the log and is not modelled. -/

/-- An action descriptor as built by `createAction` (`data` payloads are
opaque to the history mechanism and folded into the description here). -/
structure HAction where
  type : String
  description : String
deriving Repr, DecidableEq

/-- A history entry: the action plus deep copies of both snapshots. -/
structure HistoryEntry (σ : Type) where
  action : HAction
  previousState : σ
  newState : σ
deriving Repr, DecidableEq

/-- The mutable fields of `StateManager`. -/
structure StateManager (σ : Type) where
  history : List (HistoryEntry σ)
  currentIndex : Int
  maxHistorySize : Nat
  hasUnsavedChangesFlag : Bool
deriving Repr, DecidableEq

/-- The constructor state: empty history, index −1, cap 100. -/
def StateManager.init (σ : Type) : StateManager σ :=
  { history := [], currentIndex := -1, maxHistorySize := 100
    hasUnsavedChangesFlag := false }

/-- `cloneState`: JSON deep copy, the identity on pure snapshot values. -/
def cloneState {σ : Type} (s : σ) : σ := s

/-- JS `array.slice(0, stop)` including its negative-`stop` semantics. -/
def jsSliceTo {α : Type} (l : List α) (stop : Int) : List α :=
  if stop < 0 then l.take (max ((l.length : Int) + stop) 0).toNat
  else l.take stop.toNat

/-- The redo-truncation step at the top of `saveState`:
`if (currentIndex < history.length - 1) history = history.slice(0, currentIndex + 1)`. -/
def StateManager.keptHistory {σ : Type} (sm : StateManager σ) : List (HistoryEntry σ) :=
  if sm.currentIndex < (sm.history.length : Int) - 1 then
    jsSliceTo sm.history (sm.currentIndex + 1)
  else sm.history

/-- `saveState(action, previousState, newState)`: truncate pending redo
entries, append the new entry, move the pointer to the tail; when the log now
exceeds `maxHistorySize`, `shift()` evicts the single oldest entry and the
pointer is decremented. -/
def StateManager.saveState {σ : Type} (sm : StateManager σ) (action : HAction)
    (previousState newState : σ) : StateManager σ :=
  let history := sm.keptHistory
  let entry : HistoryEntry σ :=
    ⟨action, cloneState previousState, cloneState newState⟩
  let history := history ++ [entry]
  let currentIndex : Int := (history.length : Int) - 1
  if history.length > sm.maxHistorySize then
    { history := history.drop 1, currentIndex := currentIndex - 1
      maxHistorySize := sm.maxHistorySize, hasUnsavedChangesFlag := true }
  else
    { history := history, currentIndex := currentIndex
      maxHistorySize := sm.maxHistorySize, hasUnsavedChangesFlag := true }

/-- `canUndo()`. -/
def StateManager.canUndo {σ : Type} (sm : StateManager σ) : Bool :=
  sm.currentIndex ≥ 0

/-- `canRedo()`. -/
def StateManager.canRedo {σ : Type} (sm : StateManager σ) : Bool :=
  sm.currentIndex < (sm.history.length : Int) - 1

/-- The result record `undo`/`redo` return to the caller. -/
structure RestoreResult (σ : Type) where
  action : HAction
  stateToRestore : σ
  direction : String
deriving Repr, DecidableEq

/-- `undo()`: `none` (JS `null`) when there is nothing to undo; otherwise
returns the current entry's `previousState` and decrements the pointer.  An
out-of-range `currentIndex ≥ history.length` cannot arise through this API;
that branch is modelled as a no-op. -/
def StateManager.undo {σ : Type} (sm : StateManager σ) :
    Option (RestoreResult σ) × StateManager σ :=
  if sm.canUndo then
    match sm.history[sm.currentIndex.toNat]? with
    | some entry =>
      (some ⟨entry.action, entry.previousState, "undo"⟩,
        { sm with currentIndex := sm.currentIndex - 1 })
    | none => (none, sm)
  else (none, sm)

/-- `redo()`: `none` when the pointer is already at the tail; otherwise
increments the pointer and returns that entry's `newState`. -/
def StateManager.redo {σ : Type} (sm : StateManager σ) :
    Option (RestoreResult σ) × StateManager σ :=
  if sm.canRedo then
    match sm.history[(sm.currentIndex + 1).toNat]? with
    | some entry =>
      (some ⟨entry.action, entry.newState, "redo"⟩,
        { sm with currentIndex := sm.currentIndex + 1 })
    | none => (none, sm)
  else (none, sm)

/-- `clearHistory()`: used on successful document load. -/
def StateManager.clearHistory {σ : Type} (sm : StateManager σ) : StateManager σ :=
  { sm with history := [], currentIndex := -1, hasUnsavedChangesFlag := false }

theorem keptHistory_length_le {σ : Type} (sm : StateManager σ) :
    sm.keptHistory.length ≤ sm.history.length := by
  unfold StateManager.keptHistory jsSliceTo
  split
  · split <;> (simp only [List.length_take]; omega)
  · exact le_refl _

theorem keptHistory_eq_take {σ : Type} (sm : StateManager σ)
    (h : -1 ≤ sm.currentIndex) :
    sm.keptHistory = sm.history.take (sm.currentIndex + 1).toNat := by
  unfold StateManager.keptHistory jsSliceTo
  split
  · split
    · omega
    · rfl
  · rename_i hge
    refine (List.take_of_length_le ?_).symm
    omega

theorem saveState_tail_pointer {σ : Type} (sm : StateManager σ) (a : HAction) (p n : σ) :
    (sm.saveState a p n).currentIndex = (((sm.saveState a p n).history.length : Int)) - 1 := by
  simp only [StateManager.saveState]
  split
  · rename_i hgt
    simp only [List.length_drop, List.length_append, List.length_cons, List.length_nil]
    omega
  · simp

theorem saveState_last_entry {σ : Type} (sm : StateManager σ) (a : HAction) (p n : σ)
    (hmax : 1 ≤ sm.maxHistorySize) :
    1 ≤ (sm.saveState a p n).history.length ∧
    (sm.saveState a p n).history[(sm.saveState a p n).currentIndex.toNat]? =
      some ⟨a, p, n⟩ := by
  simp only [StateManager.saveState]
  split
  · rename_i hgt
    simp only [List.length_append, List.length_cons, List.length_nil] at hgt
    constructor
    · simp only [List.length_drop, List.length_append, List.length_cons, List.length_nil]
      omega
    · have htoNat : ((((sm.keptHistory ++ [(⟨a, cloneState p, cloneState n⟩ : HistoryEntry σ)]).length : Int) - 1) - 1).toNat = sm.keptHistory.length - 1 := by
        simp only [List.length_append, List.length_cons, List.length_nil]
        omega
      rw [htoNat, List.getElem?_drop]
      have : 1 + (sm.keptHistory.length - 1) = sm.keptHistory.length := by omega
      rw [this, List.getElem?_concat_length]
      rfl
  · constructor
    · simp
    · have htoNat : ((((sm.keptHistory ++ [(⟨a, cloneState p, cloneState n⟩ : HistoryEntry σ)]).length : Int) - 1)).toNat = sm.keptHistory.length := by
        simp only [List.length_append, List.length_cons, List.length_nil]
        omega
      rw [htoNat, List.getElem?_concat_length]
      rfl

/-- C5: starting from any manager whose log respects the cap, `saveState`
keeps the log within `maxHistorySize` and leaves the pointer at the tail;
when the append would exceed the cap, the new log is exactly the appended log
with its single oldest entry dropped (strict FIFO) and the pointer is the
appended tail pointer decremented by one. -/
theorem saveState_capped_fifo {σ : Type} (sm : StateManager σ) (a : HAction) (p n : σ)
    (hlen : sm.history.length ≤ sm.maxHistorySize) :
    (sm.saveState a p n).history.length ≤ sm.maxHistorySize ∧
    (sm.saveState a p n).currentIndex = ((sm.saveState a p n).history.length : Int) - 1 ∧
    (sm.keptHistory.length + 1 > sm.maxHistorySize →
      (sm.saveState a p n).history =
        (sm.keptHistory ++ [(⟨a, cloneState p, cloneState n⟩ : HistoryEntry σ)]).drop 1 ∧
      (sm.saveState a p n).currentIndex = (((sm.keptHistory.length : Int) + 1) - 1) - 1) := by
  have hkept := keptHistory_length_le sm
  refine ⟨?_, saveState_tail_pointer sm a p n, ?_⟩
  · simp only [StateManager.saveState]
    split
    · simp only [List.length_drop, List.length_append, List.length_cons, List.length_nil]
      omega
    · rename_i hng
      simp only [List.length_append, List.length_cons, List.length_nil] at hng ⊢
      omega
  · intro hover
    simp only [StateManager.saveState]
    rw [if_pos (by simp only [List.length_append, List.length_cons, List.length_nil]; omega)]
    refine ⟨rfl, ?_⟩
    simp only [List.length_append, List.length_cons, List.length_nil]
    omega

/-- A single-entry manager already at its cap of 1, to exercise eviction. -/
def smAtCap : StateManager Nat :=
  { history := [⟨⟨"test", "a0"⟩, 0, 1⟩], currentIndex := 0
    maxHistorySize := 1, hasUnsavedChangesFlag := true }

theorem saveState_capped_fifo_witness :
    (smAtCap.saveState ⟨"note_place", "a1"⟩ 1 2).history.length ≤ smAtCap.maxHistorySize ∧
    (smAtCap.saveState ⟨"note_place", "a1"⟩ 1 2).history =
      (smAtCap.keptHistory ++
        [(⟨⟨"note_place", "a1"⟩, cloneState 1, cloneState 2⟩ : HistoryEntry Nat)]).drop 1 :=
  ⟨(saveState_capped_fifo smAtCap ⟨"note_place", "a1"⟩ 1 2 (by decide)).1,
   ((saveState_capped_fifo smAtCap ⟨"note_place", "a1"⟩ 1 2 (by decide)).2.2 (by decide)).1⟩

/-- C6: `saveState` first discards every entry after the current pointer
(`keptHistory` is exactly the first `currentIndex + 1` entries), appends the
new entry (possibly evicting the oldest), and puts the pointer at the new
tail; consequently `canRedo` is false after any `saveState`, in particular
after any sequence of undos. -/
theorem saveState_invalidates_redo {σ : Type} (sm : StateManager σ) (a : HAction) (p n : σ)
    (h : -1 ≤ sm.currentIndex) :
    (sm.saveState a p n).canRedo = false ∧
    sm.keptHistory = sm.history.take (sm.currentIndex + 1).toNat ∧
    ((sm.saveState a p n).history =
        sm.keptHistory ++ [(⟨a, cloneState p, cloneState n⟩ : HistoryEntry σ)] ∨
     (sm.saveState a p n).history =
       (sm.keptHistory ++ [(⟨a, cloneState p, cloneState n⟩ : HistoryEntry σ)]).drop 1) ∧
    (sm.saveState a p n).currentIndex = ((sm.saveState a p n).history.length : Int) - 1 := by
  have hidx := saveState_tail_pointer sm a p n
  refine ⟨?_, keptHistory_eq_take sm h, ?_, hidx⟩
  · unfold StateManager.canRedo
    rw [hidx]
    simp
  · simp only [StateManager.saveState]
    split
    · right; rfl
    · left; rfl

theorem saveState_invalidates_redo_witness :
    ((StateManager.init Nat).saveState ⟨"test", "a"⟩ 0 1).canRedo = false :=
  (saveState_invalidates_redo (StateManager.init Nat) ⟨"test", "a"⟩ 0 1 (by decide)).1

/-- C7: recording action A with pre-snapshot p and post-snapshot n, `undo()`
returns exactly p, and `redo()` immediately afterwards returns exactly n —
from any starting manager (hence after any prior sequence of recorded
actions) whose cap is at least 1. -/
theorem saveState_roundtrip {σ : Type} (sm : StateManager σ) (a : HAction) (p n : σ)
    (hmax : 1 ≤ sm.maxHistorySize) :
    (((sm.saveState a p n).undo.1).map (fun r => r.stateToRestore) = some p) ∧
    ((((sm.saveState a p n).undo.2).redo.1).map (fun r => r.stateToRestore) = some n) := by
  obtain ⟨hlen, hget⟩ := saveState_last_entry sm a p n hmax
  have hidx := saveState_tail_pointer sm a p n
  set sm1 := sm.saveState a p n with hsm1
  have hcanUndo : sm1.canUndo = true := by
    unfold StateManager.canUndo
    simp only [decide_eq_true_eq]
    omega
  have hundo : sm1.undo =
      (some ⟨a, p, "undo"⟩, { sm1 with currentIndex := sm1.currentIndex - 1 }) := by
    unfold StateManager.undo
    rw [hcanUndo, hget]
    simp
  constructor
  · rw [hundo]
    rfl
  · rw [hundo]
    have hcanRedo :
        ({ sm1 with currentIndex := sm1.currentIndex - 1 } : StateManager σ).canRedo = true := by
      unfold StateManager.canRedo
      simp only [decide_eq_true_eq]
      omega
    have hget2 :
        ({ sm1 with currentIndex := sm1.currentIndex - 1 } : StateManager σ).history[
          (({ sm1 with currentIndex := sm1.currentIndex - 1 } : StateManager σ).currentIndex + 1).toNat]? =
          some ⟨a, p, n⟩ := by
      simpa using hget
    unfold StateManager.redo
    rw [hcanRedo]
    simp only
    rw [hget2]
    rfl

theorem saveState_roundtrip_witness :
    ((((StateManager.init Nat).saveState ⟨"test", "a"⟩ 41 42).undo.1).map
        (fun r => r.stateToRestore) = some 41) ∧
    (((((StateManager.init Nat).saveState ⟨"test", "a"⟩ 41 42).undo.2).redo.1).map
        (fun r => r.stateToRestore) = some 42) :=
  saveState_roundtrip (StateManager.init Nat) ⟨"test", "a"⟩ 41 42 (by decide)

/-! ## FileOperations (src/utils/file-operations.js)

Save/load validation over loosely-typed JSON values.  `JSValue` models the
values `JSON.parse` can produce (numbers as `Int`: the validators only ever
ask `typeof x === 'number'`, so the number representation is irrelevant).
`undefined` — the result of reading an absent property — is `Option.none`.
File reading, `JSON.parse` itself, Blob/URL download plumbing and toast UI
are the external I/O boundary and are not modelled; the functions below start
from the parsed value, exactly as `validateLoadData`/`validateSaveData` do. -/

/-- A parsed JSON value. -/
inductive JSValue where
  | jnull
  | jbool (b : Bool)
  | jnum (n : Int)
  | jstr (s : String)
  | jarr (elems : List JSValue)
  | jobj (fields : List (String × JSValue))

/-- JS property read `v.k`: `none` is `undefined`.  Arrays and primitives
carry none of the named data properties the validators read. -/
def getProp : JSValue → String → Option JSValue
  | .jobj fields, k => (fields.find? (fun p => p.1 == k)).map (fun p => p.2)
  | _, _ => none

/-- JS truthiness. -/
def truthy : JSValue → Bool
  | .jnull => false
  | .jbool b => b
  | .jnum n => n != 0
  | .jstr s => s != ""
  | .jarr _ => true
  | .jobj _ => true

/-- Truthiness of a possibly-`undefined` value. -/
def truthyOpt : Option JSValue → Bool
  | none => false
  | some v => truthy v

/-- JS `typeof v === 'object'`: true for objects, arrays and `null`. -/
def typeofObject : JSValue → Bool
  | .jnull => true
  | .jarr _ => true
  | .jobj _ => true
  | _ => false

/-- `typeof v === 'object'` where `v` may be `undefined`. -/
def typeofObjectOpt : Option JSValue → Bool
  | some v => typeofObject v
  | none => false

/-- `typeof v === 'number'` where `v` may be `undefined`. -/
def isNumberOpt : Option JSValue → Bool
  | some (.jnum _) => true
  | _ => false

/-- `Array.isArray(v)` where `v` may be `undefined`. -/
def isArrayOpt : Option JSValue → Bool
  | some (.jarr _) => true
  | _ => false

/-- JS `'k' in v`: key presence on an object.  On an array the keys checked
here are always absent; on a primitive or `null` the operator throws, which
each caller's try/catch turns into a failed validation — the same `false`. -/
def hasProp : JSValue → String → Bool
  | .jobj fields, k => fields.any (fun p => p.1 == k)
  | _, _ => false

/-- Chained read `v.k1.k2` with `v.k1` possibly `undefined`. -/
def getPropOpt (o : Option JSValue) (k : String) : Option JSValue :=
  o.bind (fun v => getProp v k)

/-- `'k' in v` where `v` may be `undefined`. -/
def hasPropOpt (o : Option JSValue) (k : String) : Bool :=
  match o with
  | some v => hasProp v k
  | none => false

/-- `validateGridStructure(grid)` (file-operations.js): required keys,
object-typed `position` with numeric `x`/`y`, object-typed `config` with the
five required keys, numeric fret/string counts, and array `tuning`.  The
conjunction is in source order; any failure (or thrown `in` on a
non-object) yields `false`. -/
def validateGridStructure (grid : JSValue) : Bool :=
  hasProp grid "id" && hasProp grid "position" && hasProp grid "config" &&
  truthyOpt (getProp grid "position") && typeofObjectOpt (getProp grid "position") &&
  isNumberOpt (getPropOpt (getProp grid "position") "x") &&
  isNumberOpt (getPropOpt (getProp grid "position") "y") &&
  truthyOpt (getProp grid "config") && typeofObjectOpt (getProp grid "config") &&
  hasPropOpt (getProp grid "config") "startFret" &&
  hasPropOpt (getProp grid "config") "endFret" &&
  hasPropOpt (getProp grid "config") "stringCount" &&
  hasPropOpt (getProp grid "config") "tuning" &&
  hasPropOpt (getProp grid "config") "orientation" &&
  isNumberOpt (getPropOpt (getProp grid "config") "startFret") &&
  isNumberOpt (getPropOpt (getProp grid "config") "endFret") &&
  isNumberOpt (getPropOpt (getProp grid "config") "stringCount") &&
  isArrayOpt (getPropOpt (getProp grid "config") "tuning")

/-- `validateSaveData(data)` (file-operations.js): presence of
version/canvas/grids, object canvas, array grids with every grid passing
`validateGridStructure`, and `notes`, when truthy, of object type. -/
def validateSaveData (data : JSValue) : Bool :=
  hasProp data "version" && hasProp data "canvas" && hasProp data "grids" &&
  typeofObjectOpt (getProp data "canvas") &&
  (match getProp data "grids" with
   | some (.jarr gs) => gs.all validateGridStructure
   | _ => false) &&
  (!(truthyOpt (getProp data "notes")) || typeofObjectOpt (getProp data "notes"))

/-- The indexed per-grid loop of `validateLoadData`, reporting the first
failing index. -/
def validateGridList : List JSValue → Nat → Except String Unit
  | [], _ => .ok ()
  | g :: rest, i =>
    if validateGridStructure g then validateGridList rest (i + 1)
    else .error s!"Invalid grid structure at index {i}"

/-- `validateLoadData(data)` (file-operations.js): `.ok` is
`{ isValid: true }`, `.error e` is `{ isValid: false, error: e }`. -/
def validateLoadData (data : JSValue) : Except String Unit :=
  if !(truthy data && typeofObject data) then
    .error "File must contain a JSON object"
  else if !(truthyOpt (getProp data "version")) then
    .error "Missing version information"
  else if !(truthyOpt (getProp data "canvas") && typeofObjectOpt (getProp data "canvas")) then
    .error "Missing or invalid canvas configuration"
  else
    match getProp data "grids" with
    | some (.jarr gs) => validateGridList gs 0
    | _ => .error "Missing or invalid grids array"

/-- JS `x || dflt` applied to a possibly-`undefined` value. -/
def jsOr (v : Option JSValue) (dflt : JSValue) : JSValue :=
  match v with
  | some x => if truthy x then x else dflt
  | none => dflt

/-- The `canvasState` record `loadCanvas` extracts from a validated document
(each field defaulted with `||`). -/
structure CanvasStateDoc where
  canvas : JSValue
  grids : JSValue
  notes : JSValue
  rootNote : JSValue
  intervals : JSValue
  settings : JSValue

/-- The state-extraction step of `loadCanvas`. -/
def extractCanvasState (loadedData : JSValue) : CanvasStateDoc :=
  { canvas := jsOr (getProp loadedData "canvas") (.jobj [])
    grids := jsOr (getProp loadedData "grids") (.jarr [])
    notes := jsOr (getProp loadedData "notes") (.jobj [])
    rootNote := jsOr (getProp loadedData "rootNote") .jnull
    intervals := jsOr (getProp loadedData "intervals") (.jobj [])
    settings := jsOr (getProp loadedData "settings") (.jobj []) }

/-- The outcome `loadCanvas` returns to its caller. -/
inductive LoadResult where
  | success (data : CanvasStateDoc)
  | failure (error : String)

/-- `loadCanvas` (file-operations.js) from the parsed document onwards:
validation failure throws, is caught, and returns
`{ success: false, error }` with the history untouched; only a successful
validation clears the history and hands the extracted state back.  (The
version-mismatch path is a non-fatal console warning and does not alter the
result.) -/
def loadCanvas {σ : Type} (loadedData : JSValue) (sm : StateManager σ) :
    LoadResult × StateManager σ :=
  match validateLoadData loadedData with
  | .error e => (.failure ("Invalid file structure: " ++ e), sm)
  | .ok _ => (.success (extractCanvasState loadedData), sm.clearHistory)

/-- canvas.js `handleLoad`: applies the returned state via
`restoreCanvasState` only when `result.success` is true; otherwise the
current workspace is left as it is and a toast shows the error. -/
def handleLoad {σ : Type} (loadedData : JSValue) (workspace : CanvasStateDoc)
    (sm : StateManager σ) : CanvasStateDoc × StateManager σ :=
  match loadCanvas loadedData sm with
  | (.success data, sm') => (data, sm')
  | (.failure _, sm') => (workspace, sm')

/-- The `saveData` document `saveCanvas` assembles before validating
(file-operations.js).  `Date.now()` is passed in as `ts`; the `metadata`
block is constant. -/
def buildSaveData (ts : Int) (canvasState : JSValue) : JSValue :=
  .jobj [
    ("version", .jstr "1.0"),
    ("timestamp", .jnum ts),
    ("metadata", .jobj [
      ("application", .jstr "Gitaroo Guitar Fretboard Learning Tool"),
      ("createdBy", .jstr "user"),
      ("description", .jstr "Guitar fretboard diagram with notes and configurations")]),
    ("canvas", .jobj [
      ("orientation", jsOr (getProp canvasState "orientation") (.jstr "portrait")),
      ("locked", jsOr (getProp canvasState "locked") (.jbool false)),
      ("dimensions", jsOr (getProp canvasState "dimensions")
        (.jobj [("width", .jnum 816), ("height", .jnum 1056)]))]),
    ("grids", jsOr (getProp canvasState "grids") (.jarr [])),
    ("notes", jsOr (getProp canvasState "notes") (.jobj [])),
    ("rootNote", jsOr (getProp canvasState "rootNote") .jnull),
    ("intervals", jsOr (getProp canvasState "intervals") (.jobj [])),
    ("settings", jsOr (getProp canvasState "settings") (.jobj []))]

/-- `saveCanvas` (file-operations.js) modulo browser I/O: build the document,
validate it, and either produce the document that will be serialised and
downloaded (`.ok`) or abort via the thrown-and-caught error (`.error`) with
no document produced. -/
def saveCanvas (ts : Int) (canvasState : JSValue) : Except String JSValue :=
  let saveData := buildSaveData ts canvasState
  if validateSaveData saveData then .ok saveData
  else .error "Invalid data structure for saving"

theorem validateGridList_ok_all : ∀ (gs : List JSValue) (i : Nat),
    validateGridList gs i = .ok () → ∀ g ∈ gs, validateGridStructure g = true := by
  intro gs
  induction gs with
  | nil => intro i _ g hg; cases hg
  | cons hd tl ih =>
    intro i hok g hg
    unfold validateGridList at hok
    cases hval : validateGridStructure hd with
    | false => rw [hval] at hok; simp at hok
    | true =>
      rw [hval] at hok
      simp only [if_true] at hok
      rcases List.mem_cons.mp hg with heq | hmem
      · subst heq; exact hval
      · exact ih (i + 1) hok g hmem

theorem validateLoadData_ok_grids (data : JSValue)
    (hok : validateLoadData data = .ok ()) :
    ∃ gs, getProp data "grids" = some (.jarr gs) ∧
      ∀ g ∈ gs, validateGridStructure g = true := by
  unfold validateLoadData at hok
  split at hok
  · simp at hok
  · split at hok
    · simp at hok
    · split at hok
      · simp at hok
      · split at hok
        · rename_i gs heq
          exact ⟨gs, heq, validateGridList_ok_all gs 0 hok⟩
        · simp at hok

theorem gridStructure_requires_array_tuning (g : JSValue)
    (h : isArrayOpt (getPropOpt (getProp g "config") "tuning") = false) :
    validateGridStructure g = false := by
  unfold validateGridStructure
  rw [h]
  simp

/-- C3: loading a document that is missing the top-level `grids` array, or
that contains a grid whose `config.tuning` is not an array, fails validation
with a descriptive error; the failure leaves the undo history untouched and
the caller (`handleLoad`) keeps the current workspace unchanged — history is
cleared only on a successful load. -/
theorem loadCanvas_rejects_and_preserves {σ : Type} (data : JSValue)
    (ws : CanvasStateDoc) (sm : StateManager σ)
    (h : getProp data "grids" = none ∨
      ∃ gs, getProp data "grids" = some (.jarr gs) ∧
        ∃ g ∈ gs, isArrayOpt (getPropOpt (getProp g "config") "tuning") = false) :
    ∃ e, loadCanvas data sm = (.failure e, sm) ∧ handleLoad data ws sm = (ws, sm) := by
  have hnotok : validateLoadData data ≠ .ok () := by
    intro hok
    obtain ⟨gs, hgs, hall⟩ := validateLoadData_ok_grids data hok
    rcases h with hnone | ⟨gs', hgs', g, hmem, htun⟩
    · rw [hnone] at hgs; cases hgs
    · rw [hgs'] at hgs
      simp only [Option.some.injEq, JSValue.jarr.injEq] at hgs
      subst hgs
      have := hall g hmem
      rw [gridStructure_requires_array_tuning g htun] at this
      cases this
  cases hv : validateLoadData data with
  | ok u => cases u; exact absurd hv hnotok
  | error e =>
    refine ⟨"Invalid file structure: " ++ e, ?_, ?_⟩
    · simp [loadCanvas, hv]
    · simp [handleLoad, loadCanvas, hv]

/-- A document with a version but no `grids` key at all. -/
def docMissingGrids : JSValue :=
  .jobj [("version", .jstr "1.0"), ("canvas", .jobj [])]

theorem loadCanvas_rejects_and_preserves_witness :
    ∃ e, loadCanvas docMissingGrids (StateManager.init Nat) =
        (.failure e, StateManager.init Nat) ∧
      handleLoad docMissingGrids
        (extractCanvasState (.jobj [])) (StateManager.init Nat) =
        (extractCanvasState (.jobj []), StateManager.init Nat) :=
  loadCanvas_rejects_and_preserves docMissingGrids
    (extractCanvasState (.jobj [])) (StateManager.init Nat) (Or.inl rfl)

/-- A grid that satisfies every *type-level* check of the save validator
while violating the spec's model invariants: `startFret = 99 > 24`,
`endFret = 1 < startFret`, and a `tuning` of length 0 against
`stringCount = 6`. -/
def invariantViolatingGrid : JSValue :=
  .jobj [("id", .jstr "grid-1"),
         ("position", .jobj [("x", .jnum 0), ("y", .jnum 0)]),
         ("config", .jobj [
            ("startFret", .jnum 99), ("endFret", .jnum 1),
            ("stringCount", .jnum 6), ("tuning", .jarr []),
            ("orientation", .jstr "vertical")])]

/-- A canvas state holding only the invariant-violating grid. -/
def invariantViolatingState : JSValue :=
  .jobj [("grids", .jarr [invariantViolatingGrid])]

/-- C2 (counterexample): a workspace whose grid violates the fret-bound
invariant (start 99 > end 1, both outside [0,24] order) and the
tuning-length invariant (0 entries vs stringCount 6) passes `saveCanvas`'s
validation and a document is produced — the save is not aborted and no
invariant violation is reported. -/
theorem saveCanvas_accepts_invariant_violations :
    (getPropOpt (getProp invariantViolatingGrid "config") "startFret" = some (.jnum 99)) ∧
    (getPropOpt (getProp invariantViolatingGrid "config") "endFret" = some (.jnum 1)) ∧
    (getPropOpt (getProp invariantViolatingGrid "config") "stringCount" = some (.jnum 6)) ∧
    (getPropOpt (getProp invariantViolatingGrid "config") "tuning" = some (.jarr [])) ∧
    (saveCanvas 0 invariantViolatingState).isOk = true :=
  ⟨rfl, rfl, rfl, rfl, rfl⟩

/-- A structurally complete one-grid canvas state with arbitrary numeric
fret/string values and an arbitrary tuning array. -/
def paramCanvasState (s e c : Int) (ts : List JSValue) : JSValue :=
  .jobj [("grids", .jarr [.jobj [
    ("id", .jstr "g"),
    ("position", .jobj [("x", .jnum 0), ("y", .jnum 0)]),
    ("config", .jobj [
      ("startFret", .jnum s), ("endFret", .jnum e), ("stringCount", .jnum c),
      ("tuning", .jarr ts), ("orientation", .jstr "vertical")])]])]

/-- C2 (amended): `saveCanvas` validates only structural/type-level
properties of the document — any numeric `startFret`/`endFret`/`stringCount`
and any array `tuning`, of any length, pass and a document is produced, so
the fret-bound, tuning-length and coordinate-uniqueness invariants are not
checked; when the structural validation does fail, the save aborts with the
error and produces no document. -/
theorem saveCanvas_structural_validation_only (s e c : Int) (ts : List JSValue)
    (t2 : Int) (cs : JSValue)
    (hbad : validateSaveData (buildSaveData t2 cs) = false) :
    (saveCanvas 0 (paramCanvasState s e c ts)).isOk = true ∧
    saveCanvas t2 cs = .error "Invalid data structure for saving" := by
  constructor
  · rfl
  · simp [saveCanvas, hbad]

theorem saveCanvas_structural_validation_only_witness :
    (saveCanvas 0 (paramCanvasState 3 7 6 [])).isOk = true ∧
    saveCanvas 0 (.jobj [("grids", .jnum 1)]) =
      .error "Invalid data structure for saving" :=
  saveCanvas_structural_validation_only 3 7 6 [] 0 (.jobj [("grids", .jnum 1)]) rfl

end Gitaroo
